import Mathlib

/-! Shallow embedding of the generated Playwright end-to-end scripts under
`testsprite_tests/`.  Each script has the same shape: a `try:` body that
acquires a session (automation runtime, browser, browsing context, page),
navigates with `wait_until="commit"`, runs a best-effort `domcontentloaded`
stabilization phase, performs a straight-line sequence of click/fill
interactions each of which re-reads `context.pages[-1]`, optionally runs a
terminal assertion block, and a shared `finally:` teardown that closes the
context, the browser and the runtime behind `if` guards.  The definitions
below transcribe that structure; the theorems settle the specified
properties of session lifecycle, wait policy, step ordering and assertions. -/

namespace Onboard

set_option maxRecDepth 16384

/-- Exceptions of the embedded Python runtime that the scripts raise or
catch: `playwrightError` stands for `async_api.Error` (including its timeout
subclass), `assertionError` for Python `AssertionError` carrying a message,
`nameError` for an unbound-name lookup failure, and `otherError` for any
other exception. -/
inductive PyErr where
  | playwrightError
  | assertionError (msg : String)
  | nameError (missing : String)
  | otherError
deriving DecidableEq, Repr

/-- Close/stop calls appearing in the shared `finally:` block of every
script. -/
inductive CloseEvent where
  | contextClose
  | browserClose
  | pwStop
deriving DecidableEq, Repr, Fintype

/-- Which of the three session variables (`pw`, `browser`, `context`) are
bound to a live handle rather than the initial `None`. -/
structure Handles where
  pw : Bool
  browser : Bool
  context : Bool
deriving DecidableEq, Repr, Fintype

/-- Fault oracle for the teardown: whether each close/stop call would raise
when attempted. -/
structure CloseErrors where
  contextCloseRaises : Bool
  browserCloseRaises : Bool
  pwStopRaises : Bool
deriving DecidableEq, Repr, Fintype

/-- One guarded teardown statement `if handle: await handle.close()`: the
call happens only when the variable is non-`None`, and it may raise. -/
def closeIf (acquired : Bool) (raises : Bool) (ev : CloseEvent) :
    List CloseEvent × Option PyErr :=
  if acquired then ([ev], if raises then some .otherError else none)
  else ([], none)

/-- Sequencing of two teardown fragments, as Python sequences statements: the
second fragment runs only when the first did not raise. -/
def seqFin (a b : List CloseEvent × Option PyErr) :
    List CloseEvent × Option PyErr :=
  match a.2 with
  | none => (a.1 ++ b.1, b.2)
  | some e => (a.1, some e)

/-- The `finally:` teardown block shared verbatim by all fifteen scripts:
`if context: await context.close()`, then `if browser: await browser.close()`,
then `if pw: await pw.stop()`.  Returns the sequence of close calls actually
performed and the exception escaping the block, if any. -/
def runFinally (h : Handles) (e : CloseErrors) :
    List CloseEvent × Option PyErr :=
  seqFin (closeIf h.context e.contextCloseRaises .contextClose)
    (seqFin (closeIf h.browser e.browserCloseRaises .browserClose)
      (closeIf h.pw e.pwStopRaises .pwStop))

/-- Exit paths of the `try:` body.  The three acquisition statements run in
the order `pw = await async_playwright().start()`,
`browser = await pw.chromium.launch(...)`, `context = await browser.new_context()`,
so an exception during acquisition leaves exactly a prefix of the variables
bound; `laterFailure` covers every exception after context creation
(navigation, click, fill, or the assertion block). -/
inductive BodyExit where
  | duringStart
  | duringLaunch
  | duringNewContext
  | laterFailure
  | normalCompletion
deriving DecidableEq, Repr, Fintype

/-- Session variables bound when the body exits on the given path. -/
def handlesAt : BodyExit → Handles
  | .duringStart => ⟨false, false, false⟩
  | .duringLaunch => ⟨true, false, false⟩
  | .duringNewContext => ⟨true, true, false⟩
  | .laterFailure => ⟨true, true, true⟩
  | .normalCompletion => ⟨true, true, true⟩

/-- Exception carried out of the body on the given exit path. -/
def bodyErr : BodyExit → Option PyErr
  | .normalCompletion => none
  | _ => some .otherError

/-- Python `try/finally` semantics: the teardown always runs; an exception
raised inside `finally` replaces the body exception, otherwise the body
exception (if any) propagates after the teardown. -/
def runWithTeardown (b : Option PyErr) (h : Handles) (e : CloseErrors) :
    List CloseEvent × Option PyErr :=
  match runFinally h e with
  | (tr, some e2) => (tr, some e2)
  | (tr, none) => (tr, b)

/-- One whole `run_test()` call: the body exits on path `x`, then the shared
teardown runs on the handles bound at that point. -/
def runTest (x : BodyExit) (e : CloseErrors) : List CloseEvent × Option PyErr :=
  runWithTeardown (bodyErr x) (handlesAt x) e

/-- Whether no teardown call would raise. -/
def errorFree (e : CloseErrors) : Bool :=
  !e.contextCloseRaises && !e.browserCloseRaises && !e.pwStopRaises

/-- Whether the handle closed by the given teardown call was acquired. -/
def acquiredFor (h : Handles) : CloseEvent → Bool
  | .contextClose => h.context
  | .browserClose => h.browser
  | .pwStop => h.pw

/-- Whether the given teardown call would raise under the fault oracle. -/
def raisesFor (e : CloseErrors) : CloseEvent → Bool
  | .contextClose => e.contextCloseRaises
  | .browserClose => e.browserCloseRaises
  | .pwStop => e.pwStopRaises

/-- Handle states reachable by the in-order acquisition sequence: a later
handle is only ever bound when all earlier ones are. -/
def isPrefixAcquisition (h : Handles) : Bool :=
  (!h.browser || h.pw) && (!h.context || h.browser)

/-- Result of one `wait_for_load_state("domcontentloaded", timeout=3000)`
call wrapped in `try: ... except async_api.Error: pass`: a Playwright error
(timeout or any other automation-library error) is swallowed, anything else
would propagate. -/
def bestEffortWait : Option PyErr → Option PyErr
  | some .playwrightError => none
  | o => o

/-- The loop `for frame in page.frames:` with a guarded wait per frame:
returns how many frame waits were attempted and the propagated error, if
any. -/
def stabilizeFrames : List (Option PyErr) → Nat × Option PyErr
  | [] => (0, none)
  | o :: rest =>
    match bestEffortWait o with
    | some e => (1, some e)
    | none =>
      let r := stabilizeFrames rest
      (r.1 + 1, r.2)

/-- The load-stabilization phase shared by all scripts: a best-effort
`domcontentloaded` wait on the main page followed by the per-frame loop. -/
def stabilize (mainWait : Option PyErr) (frameWaits : List (Option PyErr)) :
    Nat × Option PyErr :=
  match bestEffortWait mainWait with
  | some e => (0, some e)
  | none => stabilizeFrames frameWaits

/-- Outcomes the wait-policy claim ranges over: success, or a timeout or
other automation-library error (both modelled as `playwrightError`). -/
def isLoadWaitOutcome : Option PyErr → Bool
  | none => true
  | some .playwrightError => true
  | _ => false

/-- One interaction statement of a script body.  `navigate url waitUntil timeoutMs`
transcribes `await page.goto(url, wait_until=..., timeout=...)`.
`click locator nthIndex settleMs timeoutMs` transcribes the pair
`elem = frame.locator(locator).nth(nthIndex)` and
`await page.wait_for_timeout(settleMs); await elem.click(timeout=timeoutMs)`.
`fill locator nthIndex settleMs value` transcribes the same pair ending in
`await elem.fill(value)` (no explicit timeout: the context default applies). -/
inductive Step where
  | navigate (url : String) (waitUntil : String) (timeoutMs : Nat)
  | click (locator : String) (nthIndex : Nat) (settleMs : Nat) (timeoutMs : Nat)
  | fill (locator : String) (nthIndex : Nat) (settleMs : Nat) (value : String)
deriving DecidableEq, Repr

/-- Whether a step is a `goto` navigation. -/
def Step.isNavigate : Step → Bool
  | .navigate .. => true
  | _ => false

/-- Whether a step is a click interaction. -/
def Step.isClick : Step → Bool
  | .click .. => true
  | _ => false

/-- Whether a step is a fill interaction. -/
def Step.isFill : Step → Bool
  | .fill .. => true
  | _ => false

/-- The `wait_until` milestone of a navigation step. -/
def Step.navWaitUntil : Step → Option String
  | .navigate _ w _ => some w
  | _ => none

/-- The text a fill step types. -/
def Step.fillValue : Step → Option String
  | .fill _ _ _ v => some v
  | _ => none

/-- Effective timeout bounding a step action: clicks and navigations carry an
explicit timeout; fills fall back to the context default installed by
`context.set_default_timeout`. -/
def Step.actionTimeout (defaultTimeout : Nat) : Step → Nat
  | .navigate _ _ t => t
  | .click _ _ _ t => t
  | .fill _ _ _ _ => defaultTimeout

/-- Default per-action timeout every script installs right after creating the
context, via `context.set_default_timeout(5000)`. -/
def contextDefaultTimeout : Nat := 5000

/-- Interaction steps of
`TC001_Applicant_Details_Input_and_AI_Quotation_Generation.py` (the body
after the stabilization phase, before the assertion block). -/
def tc001Steps : List Step := [
  .navigate "http://localhost:3000" "commit" 10000,
  .click "xpath=html/body/main/section[1]/div[2]/div[2]/a[2]/button" 0 3000 5000,
  .click "xpath=html/body/main/section[1]/div[2]/div[2]/a[2]/button" 0 3000 5000,
  .fill "xpath=html/body/div[2]/div/div/div[1]/div[2]/form/div[1]/div[1]/div/div[1]/input" 0 3000 "test@demo.com",
  .click "xpath=html/body/div[2]/div/div/div[1]/div[2]/form/div[2]/button" 0 3000 5000,
  .fill "xpath=html/body/div[2]/div/div/div[1]/div[2]/form/div[1]/div[2]/div/div[1]/div[1]/label" 0 3000 "pw1234-#",
  .click "xpath=html/body/div[2]/div/div/div/div[2]/form/button[2]" 0 3000 5000,
  .click "xpath=html/body/div[3]/main/header/div/div[2]/a/button" 0 3000 5000,
  .click "xpath=html/body/div[3]/main/header/div/div[2]/a/button" 0 3000 5000,
  .fill "xpath=html/body/div[2]/main/div/div/form/div[1]/div[1]/div[1]/input" 0 3000 "Acme Corp",
  .fill "xpath=html/body/div[2]/main/div/div/form/div[1]/div[1]/div[2]/input" 0 3000 "2026/000001/07",
  .fill "xpath=html/body/div[2]/main/div/div/form/div[1]/div[1]/div[3]/input" 0 3000 "Financial Services",
  .fill "xpath=html/body/div[2]/main/div/div/form/div[1]/div[1]/div[4]/input" 0 3000 "250",
  .fill "xpath=html/body/div[2]/main/div/div/form/div[1]/div[1]/input" 0 3000 "R500,000",
  .fill "xpath=html/body/div[2]/main/div/div/form/div[2]/div/div[1]/input" 0 3000 "John Doe",
  .fill "xpath=html/body/div[2]/main/div/div/form/div[2]/div/div[2]/input" 0 3000 "john.doe@acmecorp.co.za",
  .fill "xpath=html/body/div[2]/main/div/div/form/div[2]/div/div[3]/input" 0 3000 "+27 82 555 1234",
  .click "xpath=html/body/div[2]/main/div/div/form/div[4]/button[2]" 0 3000 5000,
  .click "xpath=html/body/div[2]/main/div/div/div[2]/div/div[1]/button[4]" 0 3000 5000,
  .click "xpath=html/body/div[2]/main/div/div/div[2]/div/div[1]/button[1]" 0 3000 5000,
  .click "xpath=html/body/div[2]/main/div/div/div[2]/div/div[1]/button[4]" 0 3000 5000,
  .click "xpath=html/body/div[2]/main/header/div/div[2]/div[1]/button[2]" 0 3000 5000,
  .navigate "http://localhost:3000/dashboard/applicants/34" "commit" 10000,
  .navigate "http://localhost:3000/dashboard/applicants/34" "commit" 10000]

/-- First half of the rejection reason TC006 types into the review dialog. -/
def tc006RejectPrefix : String :=
  "Insufficient documentation and elevated risk flags"

/-- Remainder of the TC006 rejection reason (the source file holds a
mojibake-encoded em dash, transcribed byte-faithfully). -/
def tc006RejectRest : String :=
  " â€” rejecting application. Applicant does not meet required verification criteria."

/-- Interaction steps of
`TC006_Final_Risk_Manager_Review_and_Approval_Workflow.py`. -/
def tc006Steps : List Step := [
  .navigate "http://localhost:3000" "commit" 10000,
  .click "xpath=html/body/main/section[1]/div[2]/div[2]/a[2]/button" 0 3000 5000,
  .click "xpath=html/body/main/section[1]/div[2]/div[2]/a[2]/button" 0 3000 5000,
  .fill "xpath=html/body/div[2]/div/div/div[1]/div[2]/form/div[1]/div[1]/div/div[1]/input" 0 3000 "test@demo.com",
  .fill "xpath=html/body/div[2]/div/div/div[1]/div[2]/form/div[1]/div[2]/div/div[1]/div[2]/input" 0 3000 "pw1234-#",
  .click "xpath=html/body/div[2]/div/div/div[1]/div[2]/form/div[2]/button" 0 3000 5000,
  .click "xpath=html/body/div[3]/aside/nav/a[4]" 0 3000 5000,
  .click "xpath=html/body/div[3]/aside/nav/a[4]" 0 3000 5000,
  .click "xpath=html/body/div[3]/main/div/div[2]/div/div[2]/div/div[2]/div[3]/button" 0 3000 5000,
  .click "xpath=html/body/div[7]/div[5]/button[2]" 0 3000 5000,
  .click "xpath=html/body/div[3]/main/div/div[2]/div/div[2]/div/div[2]/div[3]/button" 0 3000 5000,
  .click "xpath=html/body/div[7]/div[5]/button[2]" 0 3000 5000,
  .click "xpath=html/body/div[3]/main/header/div/div[2]/div[1]/button[1]" 0 3000 5000,
  .click "xpath=html/body/div[3]/main/div/div[2]/div/div[2]/div/div[2]/div[3]/div/button[1]" 0 3000 5000,
  .fill "xpath=html/body/div[6]/div[3]/textarea" 0 3000 (tc006RejectPrefix ++ tc006RejectRest),
  .click "xpath=html/body/div[6]/button" 0 3000 5000,
  .click "xpath=html/body/div[3]/main/div/div[2]/div/div[2]/div/div[2]/div[3]/button" 0 3000 5000,
  .click "xpath=html/body/div[7]/div[5]/button[1]" 0 3000 5000]

/-- Interaction steps of
`TC009_Immediate_Denial_Handling_and_Notification.py`. -/
def tc009Steps : List Step := [
  .navigate "http://localhost:3000" "commit" 10000,
  .click "xpath=html/body/main/section[1]/div[2]/div[2]/a[2]/button" 0 3000 5000,
  .click "xpath=html/body/main/section[1]/div[2]/div[2]/a[2]/button" 0 3000 5000,
  .fill "xpath=html/body/div[2]/div/div/div[1]/div[2]/form/div[1]/div[1]/div/div[1]/input" 0 3000 "test@demo.com",
  .fill "xpath=html/body/div[2]/div/div/div[1]/div[2]/form/div[1]/div[2]/div/div[1]/div[2]/input" 0 3000 "pw1234-#",
  .click "xpath=html/body/div[2]/div/div/div[1]/div[2]/form/div[2]/button" 0 3000 5000,
  .click "xpath=html/body/div[3]/aside/nav/a[2]" 0 3000 5000,
  .click "xpath=html/body/div[3]/aside/nav/a[2]" 0 3000 5000,
  .click "xpath=html/body/div[3]/main/div/section/div[2]/div/div/table/tbody/tr[1]/td[7]/div/button" 0 3000 5000,
  .click "xpath=html/body/div[6]/div/a" 0 3000 5000,
  .click "xpath=html/body/div[5]/div/a" 0 3000 5000,
  .click "xpath=html/body/div[2]/main/div/div/div[2]/div/div[1]/button[5]" 0 3000 5000,
  .click "xpath=html/body/div[2]/aside/nav/a[3]" 0 3000 5000,
  .click "xpath=html/body/div[2]/aside/nav/a[3]" 0 3000 5000,
  .click "xpath=html/body/div[2]/main/div/section/div[2]/div/div/div/table/tbody/tr[1]/td[7]/div/button[2]" 0 3000 5000,
  .click "xpath=html/body/div[2]/main/div/section/div[2]/div/div/div/table/tbody/tr[3]/td[7]/div/button[2]" 0 3000 5000,
  .click "xpath=html/body/div[7]/div[3]/button[2]" 0 3000 5000]

/-- Parameters of a terminal assertion block
`try: await expect(frame.locator(text).first).to_be_visible(timeout=...)`
`except AssertionError: raise AssertionError(reason)`. -/
structure AssertData where
  expectedText : String
  timeoutMs : Nat
  failReason : String
deriving DecidableEq, Repr

/-- Module-level facts of one script file: the names its import statements
and definitions bind, whether the file parses as Python at all, and its
terminal assertion block when it has one. -/
structure Script where
  name : String
  boundNames : List String
  syntaxValid : Bool
  assertBlock : Option AssertData
deriving DecidableEq, Repr

/-- Names bound at module level in every script: `import asyncio`,
`from playwright import async_api`, and the `async def run_test` definition. -/
def moduleBoundNames : List String := ["asyncio", "async_api", "run_test"]

/-- Reason string of the TC001 assertion handler. -/
def tc001Reason : String :=
  "Test case failed: After submitting the new applicant form the test expected an AI-generated Quotation to appear on the applicant page showing the fee breakdown and any overlimit notification. The \x27AI-generated Quotation\x27 element was not visible, indicating the quotation or overlimit alert was not produced or displayed."

/-- Reason string of the TC009 assertion handler. -/
def tc009Reason : String :=
  "Test case failed: The test attempted to verify that submitting a denial immediately transitions the workflow to a \x27Denied\x27 state and displays an \x27Application Denied\x27 confirmation (and triggers notifications to the applicant and relevant managers), but the denial confirmation or notifications did not appear."

/-- Reason string of the TC010 assertion handler. -/
def tc010Reason : String :=
  "Test case failed: The test attempted to verify that the workflow engine enforces sequential and parallel processing — preventing out-of-sequence form access and only advancing after prerequisites and all parallel branches complete. Expected to see \x27Workflow Progress Updated\x27 to confirm successful sequential progression and completion of parallel branches, but it was not found."

/-- Reason string of the TC011 assertion handler. -/
def tc011Reason : String :=
  "Test case failed: Expected a workflow notification indicating \x27Quotation Approved\x27 was sent to test@demo.com with the correct recipient, content, and context within the expected timeframe, but no such notification appeared."

/-- Reason string of the TC013 assertion handler. -/
def tc013Reason : String :=
  "Test case failed: the test was verifying that standard onboarding cases achieve at least 80% automation and that overall workflow completion time is reduced by 30% compared to the baseline, but the success banner \x27Automation Achieved: 80% - Workflow Time Reduced by 30%\x27 did not appear"

/-- Reason string of the TC016 assertion handler. -/
def tc016Reason : String :=
  "Test case failed: expected the workflow to remain paused after completing only one parallel branch (indicator \x27Workflow Paused - waiting for other parallel branches\x27 should be visible), but the paused state did not appear"

/-- Script record for TC001. -/
def tc001Script : Script :=
  ⟨"TC001_Applicant_Details_Input_and_AI_Quotation_Generation", moduleBoundNames,
    true, some ⟨"AI-generated Quotation", 3000, tc001Reason⟩⟩

/-- Script record for TC002 (no assertion block). -/
def tc002Script : Script :=
  ⟨"TC002_Quote_Signing_and_Workflow_Trigger", moduleBoundNames, true, none⟩

/-- Script record for TC003 (no assertion block). -/
def tc003Script : Script :=
  ⟨"TC003_Facility_Application_Form_Availability_Post_Quotation_Approval",
    moduleBoundNames, true, none⟩

/-- Script record for TC004 (no assertion block). -/
def tc004Script : Script :=
  ⟨"TC004_Mandate_Determination_and_Parallel_Workflow_Branching",
    moduleBoundNames, true, none⟩

/-- Script record for TC005 (no assertion block). -/
def tc005Script : Script :=
  ⟨"TC005_AI_Analysis_of_Submitted_Documents_and_Aggregation_of_Results",
    moduleBoundNames, true, none⟩

/-- Script record for TC006 (no assertion block). -/
def tc006Script : Script :=
  ⟨"TC006_Final_Risk_Manager_Review_and_Approval_Workflow", moduleBoundNames,
    true, none⟩

/-- Script record for TC008 (no assertion block). -/
def tc008Script : Script :=
  ⟨"TC008_Workflow_Pauses_and_Resumes_on_Manual_Review_with_Notifications",
    moduleBoundNames, true, none⟩

/-- Script record for TC009. -/
def tc009Script : Script :=
  ⟨"TC009_Immediate_Denial_Handling_and_Notification", moduleBoundNames,
    true, some ⟨"Application Denied", 3000, tc009Reason⟩⟩

/-- Script record for TC010: it has an assertion block, but the block is
wrapped in stray Markdown code-fence lines, so the module does not parse as
Python (`syntaxValid = false`). -/
def tc010Script : Script :=
  ⟨"TC010_Sequential_and_Parallel_Workflow_Step_Execution_Validation",
    moduleBoundNames, false, some ⟨"Workflow Progress Updated", 3000, tc010Reason⟩⟩

/-- Script record for TC011. -/
def tc011Script : Script :=
  ⟨"TC011_Notification_Delivery_Timing_and_Content_Accuracy", moduleBoundNames,
    true, some ⟨"Quotation Approved - Notification sent to test@demo.com", 3000, tc011Reason⟩⟩

/-- Script record for TC012 (no assertion block). -/
def tc012Script : Script :=
  ⟨"TC012_Logging_Completeness_and_Dashboard_Visibility", moduleBoundNames,
    true, none⟩

/-- Script record for TC013. -/
def tc013Script : Script :=
  ⟨"TC013_Workflow_Automation_Rate_and_Completion_Time_Validation",
    moduleBoundNames, true,
    some ⟨"Automation Achieved: 80% - Workflow Time Reduced by 30%", 3000, tc013Reason⟩⟩

/-- Script record for TC015 (no assertion block). -/
def tc015Script : Script :=
  ⟨"TC015_Error_Handling_for_AI_Service_Failures", moduleBoundNames, true, none⟩

/-- Script record for TC016. -/
def tc016Script : Script :=
  ⟨"TC016_Edge_Case_Partial_Completion_of_Parallel_Workflow_Branches",
    moduleBoundNames, true,
    some ⟨"Workflow Paused - waiting for other parallel branches", 3000, tc016Reason⟩⟩

/-- Script record for TC018 (no assertion block). -/
def tc018Script : Script :=
  ⟨"TC018_Form_Validation_on_Facility_Application_and_Mandate_Documents",
    moduleBoundNames, true, none⟩

/-- All fifteen scenario scripts of the repository. -/
def scripts : List Script :=
  [tc001Script, tc002Script, tc003Script, tc004Script, tc005Script,
   tc006Script, tc008Script, tc009Script, tc010Script, tc011Script,
   tc012Script, tc013Script, tc015Script, tc016Script, tc018Script]

/-- Reason string of a script's assertion handler (empty when the script has
no assertion block). -/
def Script.reasonOf (s : Script) : String :=
  match s.assertBlock with
  | some a => a.failReason
  | none => ""

/-- Semantics of the terminal assertion block
`try: await expect(L).to_be_visible(timeout=...) except AssertionError: raise AssertionError(reason)`.
The name `expect` is resolved against the module's bound names; per Python
name resolution an unbound name raises `NameError` before any page
inspection.  When the name is bound, `to_be_visible` is modelled from the
automation library's contract (out-of-repository code): it returns normally
when the text is visible within the timeout and raises `AssertionError`
otherwise.  The `except AssertionError:` handler re-raises with the
scenario-specific reason; any other exception propagates unchanged. -/
def runAssertBlock (bound : List String) (textVisible : Bool) (reason : String) :
    Option PyErr :=
  let attempt : Option PyErr :=
    if bound.contains "expect" then
      if textVisible then none
      else some (.assertionError "to_be_visible timed out")
    else some (.nameError "expect")
  match attempt with
  | some (.assertionError _) => some (.assertionError reason)
  | o => o

/-- Execution of a whole script file: a module that does not parse (TC010)
fails with a `SyntaxError` at load time, so `run_test()` is never invoked and
no teardown call happens; otherwise the body result `b` flows through the
shared `try/finally`. -/
def runModule (s : Script) (b : Option PyErr) (h : Handles) (e : CloseErrors) :
    List CloseEvent × Option PyErr :=
  if s.syntaxValid then runWithTeardown b h e else ([], some .otherError)

/-- Time-indexed view of the browsing context: `pagesAt i` is the value of
`context.pages` (page identifiers, oldest first) at the moment step `i`
executes; the application may open or close pages between steps. -/
structure PageEnv where
  pagesAt : Nat → List Nat

/-- Straight-line execution of the interaction steps, recording for each
step the page it resolves its locator against.  Every click and fill in the
scripts is immediately preceded by `frame = context.pages[-1]`, so the
interpreter re-reads the last page of the context at the step's own time
index; navigations act on the page handle and record `none`. -/
def runInteractions (env : PageEnv) : List Step → Nat → List (Step × Option Nat)
  | [], _ => []
  | s :: rest, i =>
    (s, if s.isClick || s.isFill then (env.pagesAt i).getLast? else none)
      :: runInteractions env rest (i + 1)

/-- Events of an execution trace: action `i` starting, completing normally,
or terminating with an exception. -/
inductive Ev where
  | start (i : Nat)
  | endOk (i : Nat)
  | endErr (i : Nat)
deriving DecidableEq, Repr

/-- Sequential executor of a scenario body: the single coroutine awaits each
step's action to completion before the next statement; an action that raises
aborts the remainder of the body (the exception flows to the `finally`
block).  `fails i` is the oracle telling whether the action of step `i`
raises. -/
def runSeq (fails : Nat → Bool) : List Step → Nat → List Ev
  | [], _ => []
  | _ :: rest, i =>
    if fails i then [.start i, .endErr i]
    else .start i :: .endOk i :: runSeq fails rest (i + 1)

/-- Fully sequential trace of `n` successful steps starting at index `i`:
each action starts strictly after the previous action ended. -/
def okTrace : Nat → Nat → List Ev
  | _, 0 => []
  | i, n + 1 => .start i :: .endOk i :: okTrace (i + 1) n

/-- C1: on every exit path of the scenario body (normal completion, an
exception in any acquisition, navigation, click or fill step, or an
assertion failure) the `finally` teardown runs and, provided the close calls
themselves do not raise, closes each successfully acquired handle exactly
once and never touches an unacquired one; moreover, under every fault oracle
no handle is ever released twice. -/
theorem session_released_exactly_once (x : BodyExit) (e : CloseErrors)
    (he : errorFree e = true) :
    ((runTest x e).1.count .contextClose
        = (if (handlesAt x).context then 1 else 0)
      ∧ (runTest x e).1.count .browserClose
        = (if (handlesAt x).browser then 1 else 0)
      ∧ (runTest x e).1.count .pwStop
        = (if (handlesAt x).pw then 1 else 0))
    ∧ ∀ e' : CloseErrors,
        (runTest x e').1.count .contextClose ≤ 1
        ∧ (runTest x e').1.count .browserClose ≤ 1
        ∧ (runTest x e').1.count .pwStop ≤ 1 := by
  revert x e he
  decide

/-- Witness for C1 at the exit path of a mid-run failure with a fault-free
teardown. -/
theorem session_released_exactly_once_witness :
    errorFree ⟨false, false, false⟩ = true
    ∧ (((runTest .laterFailure ⟨false, false, false⟩).1.count .contextClose
          = (if (handlesAt .laterFailure).context then 1 else 0)
        ∧ (runTest .laterFailure ⟨false, false, false⟩).1.count .browserClose
          = (if (handlesAt .laterFailure).browser then 1 else 0)
        ∧ (runTest .laterFailure ⟨false, false, false⟩).1.count .pwStop
          = (if (handlesAt .laterFailure).pw then 1 else 0))
      ∧ ∀ e' : CloseErrors,
          (runTest .laterFailure e').1.count .contextClose ≤ 1
          ∧ (runTest .laterFailure e').1.count .browserClose ≤ 1
          ∧ (runTest .laterFailure e').1.count .pwStop ≤ 1) :=
  ⟨by decide, session_released_exactly_once .laterFailure ⟨false, false, false⟩ (by decide)⟩

/-- C2: running the teardown on a session whose handles were never or only
partially acquired (acquisition stops at a prefix, so `context` is still
`None`) never attempts a close on a handle that was never created, and—as
long as the closes of the handles that do exist succeed—raises nothing. -/
theorem release_partial_session_safe (h : Handles)
    (hp : isPrefixAcquisition h = true) (hpart : h.context = false) :
    (∀ e : CloseErrors,
        (runFinally h e).1.count .contextClose = 0
        ∧ (h.browser = false → (runFinally h e).1.count .browserClose = 0)
        ∧ (h.pw = false → (runFinally h e).1.count .pwStop = 0))
    ∧ (∀ e : CloseErrors, errorFree e = true → (runFinally h e).2 = none) := by
  revert h hp hpart
  decide

/-- Witness for C2 at the session state reached when `chromium.launch`
raises: only `pw` is bound. -/
theorem release_partial_session_safe_witness :
    (isPrefixAcquisition ⟨true, false, false⟩ = true
      ∧ (⟨true, false, false⟩ : Handles).context = false)
    ∧ ((∀ e : CloseErrors,
        (runFinally ⟨true, false, false⟩ e).1.count .contextClose = 0
        ∧ ((⟨true, false, false⟩ : Handles).browser = false →
            (runFinally ⟨true, false, false⟩ e).1.count .browserClose = 0)
        ∧ ((⟨true, false, false⟩ : Handles).pw = false →
            (runFinally ⟨true, false, false⟩ e).1.count .pwStop = 0))
      ∧ (∀ e : CloseErrors, errorFree e = true →
          (runFinally ⟨true, false, false⟩ e).2 = none)) :=
  ⟨⟨by decide, by decide⟩,
    release_partial_session_safe ⟨true, false, false⟩ (by decide) (by decide)⟩

/-- C3 counterexample: with all three handles acquired, if `context.close()`
raises then `browser.close()` and `pw.stop()` are never attempted and the
exception escapes the `finally` block — the teardown does not tolerate an
error at each step, contrary to the claim. -/
theorem release_not_error_tolerant :
    (runFinally ⟨true, true, true⟩ ⟨true, false, false⟩).1.count .browserClose = 0
    ∧ (runFinally ⟨true, true, true⟩ ⟨true, false, false⟩).1.count .pwStop = 0
    ∧ (runFinally ⟨true, true, true⟩ ⟨true, false, false⟩).2
        = some .otherError := by
  decide

/-- C3 amended: the teardown closes the browsing context, then the browser,
then stops the runtime, in that order, skipping every handle that was never
created; when no close raises, each acquired handle is closed exactly once.
It does not tolerate errors: the block finishes without an exception exactly
when no attempted close raises, and an error at one step skips the remaining
steps (the trace is always an in-order sublist of the full close sequence). -/
theorem release_ordered_skips_unacquired (h : Handles) (e : CloseErrors) :
    List.Sublist (runFinally h e).1 [.contextClose, .browserClose, .pwStop]
    ∧ (∀ ev ∈ (runFinally h e).1, acquiredFor h ev = true)
    ∧ (errorFree e = true → ∀ ev : CloseEvent, acquiredFor h ev = true →
        (runFinally h e).1.count ev = 1)
    ∧ ((runFinally h e).2 = none ↔
        ∀ ev : CloseEvent, acquiredFor h ev = true → raisesFor e ev = false) := by
  revert h e
  decide

/-- Helper: a guarded wait whose outcome is a success, a timeout, or another
automation-library error leaves no exception to propagate. -/
theorem bestEffortWait_of_loadOutcome (o : Option PyErr)
    (h : isLoadWaitOutcome o = true) : bestEffortWait o = none := by
  cases o with
  | none => rfl
  | some e => cases e <;> simp_all [isLoadWaitOutcome, bestEffortWait]

/-- Helper: the per-frame loop attempts the wait for every frame and
propagates nothing when every outcome is a load-wait outcome. -/
theorem stabilizeFrames_all_ok (l : List (Option PyErr))
    (h : ∀ o ∈ l, isLoadWaitOutcome o = true) :
    stabilizeFrames l = (l.length, none) := by
  induction l with
  | nil => rfl
  | cons o rest ih =>
    have ho := h o (List.mem_cons_self o rest)
    have hrest : ∀ x ∈ rest, isLoadWaitOutcome x = true :=
      fun x hx => h x (List.mem_cons_of_mem o hx)
    simp [stabilizeFrames, bestEffortWait_of_loadOutcome o ho, ih hrest]

/-- C4: the best-effort `domcontentloaded` wait on the main page and the
independent wait attempted for each embedded frame swallow every timeout and
automation-library error: the stabilization phase attempts the wait on all
frames, propagates nothing, and execution proceeds; and only the `commit`
milestone is ever demanded by a navigation (every `goto` of the embedded
scenarios uses `wait_until="commit"`). -/
theorem best_effort_waits_never_propagate
    (mainWait : Option PyErr) (frameWaits : List (Option PyErr))
    (hm : isLoadWaitOutcome mainWait = true)
    (hf : ∀ o ∈ frameWaits, isLoadWaitOutcome o = true) :
    stabilize mainWait frameWaits = (frameWaits.length, none)
    ∧ ∀ s ∈ tc001Steps ++ tc006Steps ++ tc009Steps,
        Step.isNavigate s = true → Step.navWaitUntil s = some "commit" := by
  refine ⟨?_, by decide⟩
  simp [stabilize, bestEffortWait_of_loadOutcome mainWait hm,
    stabilizeFrames_all_ok frameWaits hf]

/-- Witness for C4: the main-page wait times out and of two frames one times
out, yet both frame waits are attempted and no error propagates. -/
theorem best_effort_waits_never_propagate_witness :
    (isLoadWaitOutcome (some .playwrightError) = true
      ∧ ∀ o ∈ ([none, some PyErr.playwrightError] : List (Option PyErr)),
          isLoadWaitOutcome o = true)
    ∧ (stabilize (some .playwrightError)
          ([none, some PyErr.playwrightError] : List (Option PyErr))
        = (([none, some PyErr.playwrightError] : List (Option PyErr)).length, none)
      ∧ ∀ s ∈ tc001Steps ++ tc006Steps ++ tc009Steps,
          Step.isNavigate s = true → Step.navWaitUntil s = some "commit") :=
  ⟨⟨by decide, by decide⟩,
    best_effort_waits_never_propagate (some .playwrightError)
      ([none, some PyErr.playwrightError] : List (Option PyErr))
      (by decide) (by decide)⟩

/-- C5: evaluating the TC001 assertion block at the failing input (the
expected text is absent) shows the run terminates with
`NameError("expect")`, not with an `AssertionError` carrying the
scenario-specific reason: the `expect` name is unbound, so the reason string
of the handler is never attached to the reported failure. -/
theorem tc001_failure_reports_nameerror_not_reason :
    runAssertBlock moduleBoundNames false tc001Reason
      = some (.nameError "expect")
    ∧ runAssertBlock moduleBoundNames false tc001Reason
        ≠ some (.assertionError tc001Reason) := by
  decide

/-- C6 counterexample: the scenario that submits the rejection reason
beginning "Insufficient documentation and elevated risk flags" is TC006, and
TC006 contains no terminal assertion block at all — in particular it never
asserts the visible text "Application Denied". -/
theorem rejection_scenario_lacks_assertion :
    Step.fill "xpath=html/body/div[6]/div[3]/textarea" 0 3000
        (tc006RejectPrefix ++ tc006RejectRest) ∈ tc006Steps
    ∧ tc006Script.assertBlock = none := by
  decide

/-- C6 amended: scenarios are ordered step lists, but not every scenario
ends in a terminal assertion.  TC006 submits the rejection reason beginning
"Insufficient documentation and elevated risk flags" and then confirms the
rejection, yet has no assertion block; the assertion of the visible text
"Application Denied", failing on timeout with the reason citing the missing
denial confirmation and notifications, belongs to the separate scenario
TC009, whose only text fills are the login credentials. -/
theorem rejection_and_denial_scenarios :
    List.Sublist
      [Step.fill "xpath=html/body/div[6]/div[3]/textarea" 0 3000
          (tc006RejectPrefix ++ tc006RejectRest),
        Step.click "xpath=html/body/div[6]/button" 0 3000 5000] tc006Steps
    ∧ tc006Script.assertBlock = none
    ∧ tc009Script.assertBlock = some ⟨"Application Denied", 3000, tc009Reason⟩
    ∧ tc009Steps.filterMap Step.fillValue = ["test@demo.com", "pw1234-#"] := by
  decide

/-- C8: the literalized TC001 scenario fills exactly the login credentials
and the applicant fields of the claim in their declared order, then clicks
the submit button, and its terminal assertion block expects the visible text
"AI-generated Quotation" within 3000 ms with the explanatory
quotation/overlimit reason in its handler; evaluating that block at the
failing input, however, yields `NameError("expect")`, so the declared reason
is not what a run reports. -/
theorem tc001_literal_scenario :
    tc001Steps.filterMap Step.fillValue
      = ["test@demo.com", "pw1234-#", "Acme Corp", "2026/000001/07",
         "Financial Services", "250", "R500,000", "John Doe",
         "john.doe@acmecorp.co.za", "+27 82 555 1234"]
    ∧ List.Sublist
        [Step.fill "xpath=html/body/div[2]/main/div/div/form/div[2]/div/div[3]/input"
            0 3000 "+27 82 555 1234",
          Step.click "xpath=html/body/div[2]/main/div/div/form/div[4]/button[2]"
            0 3000 5000] tc001Steps
    ∧ tc001Script.assertBlock = some ⟨"AI-generated Quotation", 3000, tc001Reason⟩
    ∧ runAssertBlock moduleBoundNames false tc001Reason
        = some (.nameError "expect") := by
  decide

/-- C7: every click and fill step resolves its target against the page that
is last in the context's page list at the moment that step executes (the
scripts re-read `context.pages[-1]` immediately before every interaction, so
resolution is never cached from an earlier step), and in the embedded
scenarios every click and fill acts under the bounded 5000 ms timeout (the
explicit click timeout, or the context default installed by
`set_default_timeout(5000)` for fills). -/
theorem click_fill_resolve_last_page (env : PageEnv) (steps : List Step)
    (base i : Nat) (s : Step) (p : Option Nat)
    (hget : (runInteractions env steps base).get? i = some (s, p))
    (hcf : (s.isClick || s.isFill) = true) :
    p = (env.pagesAt (base + i)).getLast?
    ∧ ∀ t ∈ tc001Steps ++ tc006Steps ++ tc009Steps,
        (t.isClick || t.isFill) = true →
        Step.actionTimeout contextDefaultTimeout t = 5000 := by
  refine ⟨?_, by decide⟩
  induction steps generalizing base i with
  | nil =>
    rw [show runInteractions env [] base = [] from rfl] at hget
    simp at hget
  | cons s0 rest ih =>
    rw [show runInteractions env (s0 :: rest) base
        = (s0, if s0.isClick || s0.isFill then (env.pagesAt base).getLast? else none)
          :: runInteractions env rest (base + 1) from rfl] at hget
    cases i with
    | zero =>
      rw [List.get?_cons_zero] at hget
      injection hget with h
      injection h with h1 h2
      subst h1
      rw [if_pos hcf] at h2
      rw [Nat.add_zero]
      exact h2.symm
    | succ j =>
      rw [List.get?_cons_succ] at hget
      have hres := ih (base + 1) j hget
      have harith : base + 1 + j = base + (j + 1) := by omega
      rwa [harith] at hres

/-- Witness for C7: a one-click scenario in a context whose page list grows
over time; the click resolves the last page of the list at its own time
index. -/
theorem click_fill_resolve_last_page_witness :
    ((runInteractions ⟨fun i => List.range (i + 1)⟩
          [Step.click "x" 0 3000 5000] 0).get? 0
        = some (Step.click "x" 0 3000 5000, some 0)
      ∧ ((Step.click "x" 0 3000 5000).isClick
          || (Step.click "x" 0 3000 5000).isFill) = true)
    ∧ (some 0
        = ((⟨fun i => List.range (i + 1)⟩ : PageEnv).pagesAt (0 + 0)).getLast?
      ∧ ∀ t ∈ tc001Steps ++ tc006Steps ++ tc009Steps,
          (t.isClick || t.isFill) = true →
          Step.actionTimeout contextDefaultTimeout t = 5000) :=
  ⟨⟨by decide, by decide⟩,
    click_fill_resolve_last_page ⟨fun i => List.range (i + 1)⟩
      [Step.click "x" 0 3000 5000] 0 0 (Step.click "x" 0 3000 5000) (some 0)
      (by decide) (by decide)⟩

/-- Helper: the trace of the sequential executor starting at index `i` is
either a fully sequential trace of all steps, or a fully sequential trace of
the first `n` steps followed by the start and failing end of step `n`. -/
theorem runSeq_shape (fails : Nat → Bool) (steps : List Step) (i : Nat) :
    ∃ n, n ≤ steps.length ∧
      (runSeq fails steps i = okTrace i n
        ∨ (n < steps.length
            ∧ runSeq fails steps i
              = okTrace i n ++ [.start (i + n), .endErr (i + n)])) := by
  induction steps generalizing i with
  | nil => exact ⟨0, Nat.le_refl 0, Or.inl rfl⟩
  | cons s0 rest ih =>
    by_cases hf : fails i = true
    · refine ⟨0, Nat.zero_le _, Or.inr ⟨Nat.succ_pos _, ?_⟩⟩
      simp [runSeq, hf, okTrace]
    · have hfb : fails i = false := by simpa using hf
      obtain ⟨n, hn, hcase⟩ := ih (i + 1)
      refine ⟨n + 1, Nat.succ_le_succ hn, ?_⟩
      rcases hcase with h | ⟨hlt, h⟩
      · exact Or.inl (by simp [runSeq, hfb, okTrace, h])
      · refine Or.inr ⟨Nat.succ_lt_succ hlt, ?_⟩
        have harith : i + 1 + n = i + (n + 1) := by omega
        simp [runSeq, hfb, okTrace, h, harith]

/-- C9: steps of a scenario execute strictly sequentially in declared order:
under every failure oracle the execution trace is exactly
start 0, end 0, start 1, end 1, ..., possibly truncated at the first failing
action — so no action starts before the previous action completed or failed
and no two actions of one scenario overlap; instantiated on the TC001
scenario with no failures, the trace runs all of its steps in order. -/
theorem steps_execute_sequentially (fails : Nat → Bool) (steps : List Step) :
    (∃ n, n ≤ steps.length ∧
      (runSeq fails steps 0 = okTrace 0 n
        ∨ (n < steps.length
            ∧ runSeq fails steps 0 = okTrace 0 n ++ [.start n, .endErr n])))
    ∧ runSeq (fun _ => false) tc001Steps 0 = okTrace 0 tc001Steps.length := by
  constructor
  · simpa using runSeq_shape fails steps 0
  · decide

/-- C10 counterexample: TC010 contains a terminal assertion block, yet the
stray code-fence lines around it make the module a Python syntax error: on
any attempted run nothing of the script executes — in particular its
teardown block never runs, contrary to the claim that it still runs for
every script with an assertion block. -/
theorem tc010_assert_block_never_runs :
    tc010Script.assertBlock.isSome = true
    ∧ tc010Script.syntaxValid = false
    ∧ (runModule tc010Script (some (.nameError "expect")) ⟨true, true, true⟩
        ⟨false, false, false⟩).1 = []
    ∧ (runModule tc010Script (some (.nameError "expect")) ⟨true, true, true⟩
        ⟨false, false, false⟩).2 = some .otherError := by
  decide

/-- C10 amended: in every scenario script that contains a terminal assertion
block the name `expect` is never imported or defined; in the syntactically
valid ones (all but TC010, which never runs at all) executing the assertion
step raises `NameError` regardless of the page state, the `NameError` is not
caught by the `except AssertionError` handler — so the scenario-specific
reason is never attached — and the teardown block still runs, closing all
three handles. -/
theorem assert_blocks_raise_nameerror :
    ∀ s ∈ scripts, s.assertBlock.isSome = true →
      ("expect" ∈ s.boundNames → False)
      ∧ (s.syntaxValid = true →
          (∀ v : Bool, runAssertBlock s.boundNames v s.reasonOf
              = some (.nameError "expect"))
          ∧ (∀ e : CloseErrors, errorFree e = true →
              runModule s (runAssertBlock s.boundNames false s.reasonOf)
                  ⟨true, true, true⟩ e
                = ([.contextClose, .browserClose, .pwStop],
                    some (.nameError "expect")))) := by
  decide

/-- Witness for the amended C10, instantiated at the TC001 script. -/
theorem assert_blocks_raise_nameerror_witness :
    ("expect" ∈ tc001Script.boundNames → False)
    ∧ (tc001Script.syntaxValid = true →
        (∀ v : Bool, runAssertBlock tc001Script.boundNames v tc001Script.reasonOf
            = some (.nameError "expect"))
        ∧ (∀ e : CloseErrors, errorFree e = true →
            runModule tc001Script
                (runAssertBlock tc001Script.boundNames false tc001Script.reasonOf)
                ⟨true, true, true⟩ e
              = ([.contextClose, .browserClose, .pwStop],
                  some (.nameError "expect")))) :=
  assert_blocks_raise_nameerror tc001Script (by decide) (by decide)

end Onboard
